import Mathlib

/-!
Shallow embedding of the Durable Functions orchestration management client
(the `DurableOrchestrationClient` class) and its webhook transport
(the `WebhookClient` class), with proofs of the behavioural properties the
specification states about them.

Modelling conventions.  JavaScript values decoded from JSON are modelled by
`JsValue`; the JavaScript value `undefined` is modelled by `Option` at the
positions where it can occur (JSON decoding itself never yields it).
Network interaction is modelled by passing the webhook responses a run
would receive as explicit arguments; each operation additionally reports
the webhook URLs it calls, so that the property of issuing no network call
is expressible.  Milliseconds are modelled as natural numbers, and the
polling loop is analysed under the idealised clock in which only its own
sleeps advance time.
-/

/-- A JSON value as produced by decoding a response body with `JSON.parse`
(which never yields `undefined`). -/
inductive JsValue where
  | null
  | bool (b : Bool)
  | num (n : Int)
  | str (s : String)
  | arr (elems : List JsValue)
  | obj (fields : List (String × JsValue))

namespace JsValue

/-- JavaScript truthiness of a decoded JSON value, as used by the guards
`if (status)` and `else if (res.body)` in the client. -/
def truthy : JsValue → Bool
  | .null => false
  | .bool b => b
  | .num n => n != 0
  | .str s => s != ""
  | .arr _ => true
  | .obj _ => true

/-- Property lookup on a list of object fields, first binding wins. -/
def lookupField : List (String × JsValue) → String → Option JsValue
  | [], _ => none
  | (k, v) :: rest, key => if k = key then some v else lookupField rest key

/-- JavaScript property access `v.key` on a decoded JSON value: a field of
an object when present, `undefined` (here `none`) otherwise. -/
def getField : JsValue → String → Option JsValue
  | .obj fields, key => lookupField fields key
  | _, _ => none

/-- Escaping of one character inside a JSON string literal. -/
def escapeJsonChar (c : Char) : String :=
  if c = '\"' then "\\\"" else if c = '\\' then "\\\\" else String.singleton c

/-- Escaping of a string for inclusion in a JSON string literal. -/
def escapeJsonString (s : String) : String :=
  String.join (s.data.map escapeJsonChar)

mutual

/-- Model of `JSON.stringify` on decoded JSON values (on which it is
total). -/
def stringify : JsValue → String
  | .null => "null"
  | .bool true => "true"
  | .bool false => "false"
  | .num n => toString n
  | .str s => "\"" ++ escapeJsonString s ++ "\""
  | .arr elems => "[" ++ stringifyArr elems ++ "]"
  | .obj fields => "\x7b" ++ stringifyObj fields ++ "\x7d"

/-- Comma-separated rendering of the elements of a JSON array. -/
def stringifyArr : List JsValue → String
  | [] => ""
  | v :: rest =>
      stringify v ++ (if rest.isEmpty then "" else ",") ++ stringifyArr rest

/-- Comma-separated rendering of the fields of a JSON object. -/
def stringifyObj : List (String × JsValue) → String
  | [] => ""
  | (k, v) :: rest =>
      "\"" ++ escapeJsonString k ++ "\":" ++ stringify v ++
        (if rest.isEmpty then "" else ",") ++ stringifyObj rest

end

end JsValue

/-- `JSON.stringify` applied to a possibly-`undefined` JavaScript value:
`JSON.stringify(undefined)` is `undefined`. -/
def jsStringify : Option JsValue → Option String
  | some v => some v.stringify
  | none => none

/-- JavaScript `String.prototype.replace` with a string pattern, on
character lists: only the FIRST occurrence of the pattern is replaced.
An empty pattern matches at the start of the string. -/
def replaceFirstList (pat repl : List Char) : List Char → List Char
  | [] => if pat = [] then repl else []
  | c :: cs =>
      if pat.isPrefixOf (c :: cs) then repl ++ (c :: cs).drop pat.length
      else c :: replaceFirstList pat repl cs

/-- JavaScript `s.replace(pat, repl)` with a string pattern: replaces the
first occurrence of `pat` in `s` (if any) by `repl`. -/
def jsReplaceFirst (s pat repl : String) : String :=
  String.mk (replaceFirstList pat.data repl.data s.data)

/-- The set of instance management URL templates / URLs.  Modelled from the
spec: the class `HttpManagementPayload` is declared in `classes.ts`, which
is not among the provided sources; the spec names its members as the
status-query, send-event, terminate, rewind and purge URLs plus the `id`
field. -/
structure HttpManagementPayload where
  id : String
  statusQueryGetUri : String
  sendEventPostUri : String
  terminatePostUri : String
  rewindPostUri : String
  purgeHistoryDeleteUri : String
deriving DecidableEq, Repr

/-- The set of instance creation URL templates.  Modelled from the spec:
`creationUrls` is a set of named URL templates keyed by function-name and
instance-id placeholders (class declared in `classes.ts`, not among the
provided sources); `startNew` uses `createNewInstancePostUri`. -/
structure HttpCreationPayload where
  createNewInstancePostUri : String
  createAndWaitOnNewInstancePostUri : String
deriving DecidableEq, Repr

/-- The configuration snapshot the client is constructed from
(`OrchestrationClientInputData`): task hub name, creation URL templates and
management URL templates.  The `id` field of `managementUrls` holds the
id-placeholder token embedded in the templates. -/
structure OrchestrationClientInputData where
  taskHubName : String
  creationUrls : HttpCreationPayload
  managementUrls : HttpManagementPayload
deriving DecidableEq, Repr

/-- The uniform result of one webhook transport call, decoded:
`{status, body, headers}` (the spec calls this `HttpResult`). -/
structure HttpResult where
  status : Nat
  body : JsValue
  headers : List (String × String)

/-- A header value in a response produced by this client: the source
writes both strings and numbers into the headers object. -/
inductive HeaderValue where
  | str (s : String)
  | num (n : Nat)
deriving DecidableEq, Repr

/-- The body of an HTTP response produced by this client for its own
caller: absent (`undefined`), a serialized JSON string
(`createHttpResponse`), or the management payload object itself
(`createCheckStatusResponse`). -/
inductive ResponseBody where
  | undef
  | text (s : String)
  | payload (p : HttpManagementPayload)
deriving DecidableEq, Repr

/-- An HTTP response produced by this client for its own caller
(the `IHttpResponse` shape the client returns). -/
structure IHttpResponse where
  status : Nat
  body : ResponseBody
  headers : List (String × HeaderValue)
deriving DecidableEq, Repr

/-- The error taxonomy of the client: one constructor per distinct throw
site, carrying the data the thrown message interpolates. -/
inductive DfError where
  /-- `raiseEvent`: thrown when `eventName` is empty, before any call. -/
  | invalidEventName
  /-- `startNew`: thrown when `orchestratorFunctionName` is empty. -/
  | invalidOrchestratorFunctionName
  /-- 404 from the send-event, rewind or terminate endpoint. -/
  | instanceNotFound (instanceId : String)
  /-- 400 from the send-event endpoint: only application/json content. -/
  | unsupportedContentType
  /-- 410 from the rewind endpoint: rewind is only supported on failed
  orchestration instances. -/
  | rewindOnlyFailedInstances
  /-- A status code outside the enumerated set of an endpoint. -/
  | unrecognizedWebhookStatus (status : Nat) (body : JsValue)
  /-- `startNew`: a status above 202, surfacing the response body. -/
  | webhookResponseBody (body : JsValue)
  /-- `waitForCompletionOrCreateCheckStatusResponse`: retry interval
  exceeds the total timeout. -/
  | timeoutLessThanRetry (timeoutInMilliseconds retryIntervalInMilliseconds : Nat)
  /-- `callWebhook`: a URL scheme other than http or https. -/
  | unrecognizedProtocol (protocol : String)

/-- The run of one client operation: the webhook URLs it called, in order,
and its outcome. -/
structure OpRun (α : Type) where
  calledUrls : List String
  result : Except DfError α

/-- A parsed URL, with the components the transport reads (mirroring the
WHATWG `URL` properties used by `callWebhook`: `port` is a string, empty
when absent; `protocol` keeps its trailing colon). -/
structure Url where
  protocol : String
  hostname : String
  port : String
  pathname : String
  search : String
deriving DecidableEq, Repr

/-- The request options object `callWebhook` hands to the http/https
module. -/
structure IRequestOptions where
  hostname : String
  path : String
  method : String
  headers : List (String × HeaderValue)
  port : Option String
  timeout : Option Nat
deriving DecidableEq, Repr

/-- The request-construction part of `WebhookClient.callWebhook`: serialize
the optional input, build the options (headers always carry
`Content-Type: application/json` and a `Content-Length` of the serialized
payload length, or 0 when the input is `undefined`; the port only when the
URL has one; the wire timeout padded by 500 ms when one is requested), and
reject any URL scheme other than http or https. -/
def callWebhook (url : Url) (httpMethod : String) (input : Option JsValue)
    (timeoutInMilliseconds : Option Nat) : Except DfError IRequestOptions :=
  let requestData := jsStringify input
  let options : IRequestOptions :=
    { hostname := url.hostname
      path := url.pathname ++ url.search
      method := httpMethod
      headers := [("Content-Type", HeaderValue.str "application/json"),
                  ("Content-Length", HeaderValue.num
                    (match requestData with
                     | some s => s.length
                     | none => 0))]
      port := if url.port = "" then none else some url.port
      timeout :=
        match timeoutInMilliseconds with
        | some t => if t ≠ 0 then some (t + 500) else none
        | none => none }
  if url.protocol = "http:" ∨ url.protocol = "https:" then Except.ok options
  else Except.error (DfError.unrecognizedProtocol url.protocol)

/-- `WebhookClient.get`. -/
def webhookGet (url : Url) (timeoutInMilliseconds : Option Nat) :
    Except DfError IRequestOptions :=
  callWebhook url "GET" none timeoutInMilliseconds

/-- `WebhookClient.post`. -/
def webhookPost (url : Url) (input : Option JsValue)
    (timeoutInMilliseconds : Option Nat) : Except DfError IRequestOptions :=
  callWebhook url "POST" input timeoutInMilliseconds

/-- The `eventNamePlaceholder` field of the client. -/
def eventNamePlaceholder : String := "\x7beventName\x7d"

/-- The `functionNamePlaceholder` field of the client. -/
def functionNamePlaceholder : String := "\x7bfunctionName\x7d"

/-- The `instanceIdPlaceholder` field of the client (the optional trailing
id segment of creation URLs). -/
def instanceIdPlaceholder : String := "[/\x7binstanceId\x7d]"

/-- The `reasonPlaceholder` field of the client. -/
def reasonPlaceholder : String := "\x7btext\x7d"

/-- The `showHistoryQueryKey` field of the client. -/
def showHistoryQueryKey : String := "showHistory"

/-- The `showHistoryOutputQueryKey` field of the client. -/
def showHistoryOutputQueryKey : String := "showHistoryOutput"

/-- Modelled from the dependency: the guard
`isURL(s, this.urlValidationOptions)` from the validator package with
options requiring an explicit http or https protocol, abstracted to its
effect on the strings involved: the string begins with an accepted
scheme. -/
def isURL (s : String) : Bool :=
  "http://".isPrefixOf s || "https://".isPrefixOf s

/-- Characters of a URL up to but excluding the first slash. -/
def takeUntilSlash : List Char → List Char
  | [] => []
  | c :: cs => if c = '/' then [] else c :: takeUntilSlash cs

/-- Split a character list at the first occurrence of the scheme
separator `://`, when present. -/
def splitAtSchemeSep : List Char → Option (List Char × List Char)
  | [] => none
  | c :: cs =>
      if (String.data "://").isPrefixOf (c :: cs) then
        some ([], (c :: cs).drop 3)
      else
        match splitAtSchemeSep cs with
        | some (a, b) => some (c :: a, b)
        | none => none

/-- Model of `new URL(s).origin` on an absolute http(s) URL: the scheme,
the separator, and the authority up to the first slash. -/
def urlOrigin (s : String) : String :=
  match splitAtSchemeSep s.data with
  | some (scheme, rest) =>
      String.mk scheme ++ "://" ++ String.mk (takeUntilSlash rest)
  | none => s

/-- The per-key body of `getClientResponseLinks`: when a triggering
request with a usable URL is at hand and the value is a URL, rewrite its
origin to the origin of the request, and in every case replace (the first
occurrence of) the configured id placeholder by the instance id.  The
`requestUrl` argument is the URL of the triggering request when it has one
(`hasValidRequestUrl`), collapsing the two request shapes the source
accepts. -/
def substituteLink (clientData : OrchestrationClientInputData)
    (requestUrl : Option String) (instanceId link : String) : String :=
  let rewritten :=
    match requestUrl with
    | some reqUrl =>
        if isURL link then jsReplaceFirst link (urlOrigin link) (urlOrigin reqUrl)
        else link
    | none => link
  jsReplaceFirst rewritten clientData.managementUrls.id instanceId

/-- `getClientResponseLinks`: a copy of the configured management URLs
with every key substituted by `substituteLink`. -/
def getClientResponseLinks (clientData : OrchestrationClientInputData)
    (requestUrl : Option String) (instanceId : String) : HttpManagementPayload :=
  { id := substituteLink clientData requestUrl instanceId
      clientData.managementUrls.id
    statusQueryGetUri := substituteLink clientData requestUrl instanceId
      clientData.managementUrls.statusQueryGetUri
    sendEventPostUri := substituteLink clientData requestUrl instanceId
      clientData.managementUrls.sendEventPostUri
    terminatePostUri := substituteLink clientData requestUrl instanceId
      clientData.managementUrls.terminatePostUri
    rewindPostUri := substituteLink clientData requestUrl instanceId
      clientData.managementUrls.rewindPostUri
    purgeHistoryDeleteUri := substituteLink clientData requestUrl instanceId
      clientData.managementUrls.purgeHistoryDeleteUri }

/-- `createHttpManagementPayload`: the response links without an inbound
request. -/
def createHttpManagementPayload (clientData : OrchestrationClientInputData)
    (instanceId : String) : HttpManagementPayload :=
  getClientResponseLinks clientData none instanceId

/-- `createCheckStatusResponse`: HTTP 202 whose body is the management
payload and whose headers carry the content type, the status-query URL as
`Location`, and `Retry-After: 10`. -/
def createCheckStatusResponse (clientData : OrchestrationClientInputData)
    (requestUrl : Option String) (instanceId : String) : IHttpResponse :=
  let httpManagementPayload := getClientResponseLinks clientData requestUrl instanceId
  { status := 202
    body := ResponseBody.payload httpManagementPayload
    headers := [("Content-Type", HeaderValue.str "application/json"),
                ("Location", HeaderValue.str httpManagementPayload.statusQueryGetUri),
                ("Retry-After", HeaderValue.num 10)] }

/-- The private `createHttpResponse` helper: serialize the body and attach
the content type and a `Content-Length` equal to the length of the
serialized body, or 0 when serialization yields `undefined`. -/
def createHttpResponse (statusCode : Nat) (body : Option JsValue) : IHttpResponse :=
  let bodyAsJson := jsStringify body
  { status := statusCode
    body :=
      match bodyAsJson with
      | some s => ResponseBody.text s
      | none => ResponseBody.undef
    headers := [("Content-Type", HeaderValue.str "application/json"),
                ("Content-Length", HeaderValue.num
                  (match bodyAsJson with
                   | some s => s.length
                   | none => 0))] }

/-- The status-query URL `getStatus` builds: the status-query template with
the configured id placeholder substituted (first occurrence), plus the
optional history query flags (appended with the value `true`, the only
truthy value of the boolean parameters). -/
def statusQueryWebhookUrl (clientData : OrchestrationClientInputData)
    (instanceId : String) (showHistory showHistoryOutput : Bool) : String :=
  let template := clientData.managementUrls.statusQueryGetUri
  let idPlacholder := clientData.managementUrls.id
  let url := jsReplaceFirst template idPlacholder instanceId
  let url := if showHistory then url ++ "&" ++ showHistoryQueryKey ++ "=true" else url
  if showHistoryOutput then url ++ "&" ++ showHistoryOutputQueryKey ++ "=true" else url

/-- `getStatus`: query the status endpoint; status codes 200, 202, 400,
404 and 500 all resolve with the decoded body as the status object, any
other status code is a protocol-violation failure.  The webhook response
the network would deliver is passed in as `res`. -/
def getStatus (clientData : OrchestrationClientInputData) (instanceId : String)
    (showHistory showHistoryOutput : Bool) (res : HttpResult) : OpRun JsValue :=
  { calledUrls := [statusQueryWebhookUrl clientData instanceId showHistory showHistoryOutput]
    result :=
      if res.status = 200 ∨ res.status = 202 ∨ res.status = 400 ∨
          res.status = 404 ∨ res.status = 500 then
        Except.ok res.body
      else
        Except.error (DfError.unrecognizedWebhookStatus res.status res.body) }

/-- `raiseEvent`: an empty event name fails immediately with no webhook
call; otherwise the send-event URL is built by substituting the id and
event-name placeholders and the webhook status is mapped: 202 and 410
resolve, 404 is instance-not-found, 400 is unsupported content type,
anything else is unrecognized.  The optional task-hub and connection
rewrites of the URL (applied only when the corresponding optional
arguments are supplied) are not modelled; the runs analysed here omit
those arguments. -/
def raiseEvent (clientData : OrchestrationClientInputData)
    (instanceId eventName : String) (res : HttpResult) : OpRun Unit :=
  if eventName = "" then
    { calledUrls := [], result := Except.error DfError.invalidEventName }
  else
    let idPlaceholder := clientData.managementUrls.id
    let url := jsReplaceFirst
      (jsReplaceFirst clientData.managementUrls.sendEventPostUri idPlaceholder instanceId)
      eventNamePlaceholder eventName
    { calledUrls := [url]
      result :=
        if res.status = 202 ∨ res.status = 410 then Except.ok ()
        else if res.status = 404 then Except.error (DfError.instanceNotFound instanceId)
        else if res.status = 400 then Except.error DfError.unsupportedContentType
        else Except.error (DfError.unrecognizedWebhookStatus res.status res.body) }

/-- `rewind`: substitute the id and reason placeholders into the rewind
template and POST; 202 resolves, 404 is instance-not-found, 410 reports
that rewind is only supported on failed orchestration instances, anything
else is unrecognized. -/
def rewind (clientData : OrchestrationClientInputData)
    (instanceId reason : String) (res : HttpResult) : OpRun Unit :=
  let idPlaceholder := clientData.managementUrls.id
  let url := jsReplaceFirst
    (jsReplaceFirst clientData.managementUrls.rewindPostUri idPlaceholder instanceId)
    reasonPlaceholder reason
  { calledUrls := [url]
    result :=
      if res.status = 202 then Except.ok ()
      else if res.status = 404 then Except.error (DfError.instanceNotFound instanceId)
      else if res.status = 410 then Except.error DfError.rewindOnlyFailedInstances
      else Except.error (DfError.unrecognizedWebhookStatus res.status res.body) }

/-- `terminate`: substitute the id and reason placeholders into the
terminate template and POST; 202 and 410 resolve, 404 is
instance-not-found, anything else is unrecognized. -/
def terminate (clientData : OrchestrationClientInputData)
    (instanceId reason : String) (res : HttpResult) : OpRun Unit :=
  let idPlaceholder := clientData.managementUrls.id
  let url := jsReplaceFirst
    (jsReplaceFirst clientData.managementUrls.terminatePostUri idPlaceholder instanceId)
    reasonPlaceholder reason
  { calledUrls := [url]
    result :=
      if res.status = 202 ∨ res.status = 410 then Except.ok ()
      else if res.status = 404 then Except.error (DfError.instanceNotFound instanceId)
      else Except.error (DfError.unrecognizedWebhookStatus res.status res.body) }

/-- `startNew`: an empty orchestrator function name fails immediately;
otherwise the creation URL is built by substituting the function name and
the optional trailing id segment (empty when no id, or an empty id, is
supplied), and the webhook status is mapped: above 202 fails surfacing the
response body, otherwise a truthy body resolves with its `id` field and a
falsy body resolves with no id. -/
def startNew (clientData : OrchestrationClientInputData)
    (orchestratorFunctionName : String) (instanceId : Option String)
    (res : HttpResult) : OpRun (Option JsValue) :=
  if orchestratorFunctionName = "" then
    { calledUrls := [], result := Except.error DfError.invalidOrchestratorFunctionName }
  else
    let url := jsReplaceFirst
      (jsReplaceFirst clientData.creationUrls.createNewInstancePostUri
        functionNamePlaceholder orchestratorFunctionName)
      instanceIdPlaceholder
      (match instanceId with
       | some i => if i = "" then "" else "/" ++ i
       | none => "")
    { calledUrls := [url]
      result :=
        if res.status > 202 then
          Except.error (DfError.webhookResponseBody res.body)
        else if res.body.truthy then
          Except.ok (res.body.getField "id")
        else
          Except.ok none }

/-- The branch of the polling loop on `status.runtimeStatus` when the
decoded status object is truthy: the response that ends the wait, when the
status is terminal.  Modelled from the spec: the members of the
`OrchestrationRuntimeStatus` enum compared against here are declared in
`classes.ts`, which is not among the provided sources; the host reports
the runtime status as the JSON strings named by the spec
(Completed, Canceled, Terminated, Failed for the terminal ones), so the
enum members carry those strings as values. -/
def terminalStatusResponse (status : JsValue) : Option IHttpResponse :=
  if status.truthy then
    match status.getField "runtimeStatus" with
    | some (JsValue.str "Completed") =>
        some (createHttpResponse 200 (status.getField "output"))
    | some (JsValue.str "Canceled") => some (createHttpResponse 200 (some status))
    | some (JsValue.str "Terminated") => some (createHttpResponse 200 (some status))
    | some (JsValue.str "Failed") => some (createHttpResponse 500 (some status))
    | _ => none
  else none

/-- The observable outcome of one run of the polling operation: its result
(`Except` for the thrown failures; the inner `Option` is `none` only when
the supplied response trace ran out before the loop decided), the number
of status queries issued, and the sleep durations performed, in order. -/
structure WaitOutcome where
  result : Except DfError (Option IHttpResponse)
  statusCalls : Nat
  sleeps : List Nat

/-- The `while (true)` loop of
`waitForCompletionOrCreateCheckStatusResponse`, over the webhook responses
the successive status queries would receive and with the elapsed time
carried explicitly (idealised clock: only the sleeps advance it).  Each
iteration queries the status; a failure of `getStatus` aborts the loop, a
terminal status returns its response, and otherwise the loop either sleeps
for the retry interval clamped to the remaining time (when the deadline
has not passed) or degrades to `createCheckStatusResponse`. -/
def waitForCompletionAux (clientData : OrchestrationClientInputData)
    (requestUrl : Option String) (instanceId : String)
    (timeoutInMilliseconds retryIntervalInMilliseconds : Nat) :
    List HttpResult → Nat → WaitOutcome
  | [], _ => { result := Except.ok none, statusCalls := 0, sleeps := [] }
  | res :: rest, elapsed =>
    match (getStatus clientData instanceId false false res).result with
    | Except.error e => { result := Except.error e, statusCalls := 1, sleeps := [] }
    | Except.ok status =>
      match terminalStatusResponse status with
      | some response =>
          { result := Except.ok (some response), statusCalls := 1, sleeps := [] }
      | none =>
        if elapsed < timeoutInMilliseconds then
          let remainingTime := timeoutInMilliseconds - elapsed
          let sleepMs :=
            if remainingTime > retryIntervalInMilliseconds then
              retryIntervalInMilliseconds
            else remainingTime
          let cont := waitForCompletionAux clientData requestUrl instanceId
            timeoutInMilliseconds retryIntervalInMilliseconds rest (elapsed + sleepMs)
          { result := cont.result
            statusCalls := cont.statusCalls + 1
            sleeps := sleepMs :: cont.sleeps }
        else
          { result := Except.ok
              (some (createCheckStatusResponse clientData requestUrl instanceId))
            statusCalls := 1
            sleeps := [] }

/-- `waitForCompletionOrCreateCheckStatusResponse`: fail with a
configuration error, before any status query, when the retry interval
exceeds the timeout; otherwise run the polling loop from elapsed time
zero. -/
def waitForCompletionOrCreateCheckStatusResponse
    (clientData : OrchestrationClientInputData) (requestUrl : Option String)
    (instanceId : String)
    (timeoutInMilliseconds retryIntervalInMilliseconds : Nat)
    (responses : List HttpResult) : WaitOutcome :=
  if retryIntervalInMilliseconds > timeoutInMilliseconds then
    { result := Except.error
        (DfError.timeoutLessThanRetry timeoutInMilliseconds retryIntervalInMilliseconds)
      statusCalls := 0
      sleeps := [] }
  else
    waitForCompletionAux clientData requestUrl instanceId
      timeoutInMilliseconds retryIntervalInMilliseconds responses 0

/-- The URL-valued entries of a management payload together with its `id`
entry, in declaration order: the view under which
`getClientResponseLinks` acts key by key. -/
def payloadUrls (p : HttpManagementPayload) : List String :=
  [p.id, p.statusQueryGetUri, p.sendEventPostUri, p.terminatePostUri,
   p.rewindPostUri, p.purgeHistoryDeleteUri]

/-- The sleep durations of a polling run are clamped: each sleep starts
strictly before the deadline, lasts exactly the retry interval clamped to
the remaining time, and therefore never continues past the deadline. -/
def clampedSleeps (timeoutInMilliseconds retryIntervalInMilliseconds : Nat) :
    Nat → List Nat → Prop
  | _, [] => True
  | elapsed, s :: rest =>
      elapsed < timeoutInMilliseconds ∧
      s = min retryIntervalInMilliseconds (timeoutInMilliseconds - elapsed) ∧
      elapsed + s ≤ timeoutInMilliseconds ∧
      clampedSleeps timeoutInMilliseconds retryIntervalInMilliseconds (elapsed + s) rest

/-- A concrete configuration used to instantiate the theorems below. -/
def sampleClientData : OrchestrationClientInputData :=
  { taskHubName := "TestHub"
    creationUrls :=
      { createNewInstancePostUri :=
          "http://host/orchestrators/\x7bfunctionName\x7d[/\x7binstanceId\x7d]"
        createAndWaitOnNewInstancePostUri :=
          "http://host/orchestrators/\x7bfunctionName\x7d[/\x7binstanceId\x7d]?wait=1" }
    managementUrls :=
      { id := "ID"
        statusQueryGetUri := "http://host/instances/ID?code=KEY"
        sendEventPostUri := "http://host/instances/ID/raiseEvent/\x7beventName\x7d"
        terminatePostUri := "http://host/instances/ID/terminate?reason=\x7btext\x7d"
        rewindPostUri := "http://host/instances/ID/rewind?reason=\x7btext\x7d"
        purgeHistoryDeleteUri := "http://host/instances/ID" } }

/-- A configuration whose status-query template contains the id
placeholder twice. -/
def doubledIdClientData : OrchestrationClientInputData :=
  { taskHubName := "TestHub"
    creationUrls :=
      { createNewInstancePostUri :=
          "http://host/orchestrators/\x7bfunctionName\x7d[/\x7binstanceId\x7d]"
        createAndWaitOnNewInstancePostUri :=
          "http://host/orchestrators/\x7bfunctionName\x7d[/\x7binstanceId\x7d]?wait=1" }
    managementUrls :=
      { id := "ID"
        statusQueryGetUri := "http://host/instances/ID?watch=ID"
        sendEventPostUri := "http://host/instances/ID/raiseEvent"
        terminatePostUri := "http://host/instances/ID/terminate"
        rewindPostUri := "http://host/instances/ID/rewind"
        purgeHistoryDeleteUri := "http://host/instances/ID" } }

/-- A decoded status object reporting a completed instance with output
42. -/
def sampleCompletedStatus : JsValue :=
  JsValue.obj [("runtimeStatus", JsValue.str "Completed"),
               ("output", JsValue.num 42)]

/-- **C3**: for every instance id and every webhook response, `getStatus`
resolves with the decoded response body as the status object when the
response status code is one of 200, 202, 400, 404 or 500, and fails with a
protocol-violation error for every other status code. -/
theorem getStatus_statusCode_mapping
    (clientData : OrchestrationClientInputData) (instanceId : String)
    (showHistory showHistoryOutput : Bool) (res : HttpResult) :
    ((res.status = 200 ∨ res.status = 202 ∨ res.status = 400 ∨
        res.status = 404 ∨ res.status = 500) →
      (getStatus clientData instanceId showHistory showHistoryOutput res).result
        = Except.ok res.body) ∧
    (¬(res.status = 200 ∨ res.status = 202 ∨ res.status = 400 ∨
        res.status = 404 ∨ res.status = 500) →
      (getStatus clientData instanceId showHistory showHistoryOutput res).result
        = Except.error (DfError.unrecognizedWebhookStatus res.status res.body)) := by
  constructor
  · intro h
    simp only [getStatus, if_pos h]
  · intro h
    simp only [getStatus, if_neg h]

/-- Witness for C3 at a concrete response: status 200 resolves with the
body. -/
theorem getStatus_statusCode_mapping_witness :
    (getStatus sampleClientData "abc" false false
      { status := 200, body := JsValue.null, headers := [] }).result
      = Except.ok JsValue.null :=
  (getStatus_statusCode_mapping sampleClientData "abc" false false
    { status := 200, body := JsValue.null, headers := [] }).1 (Or.inl rfl)

/-- **C4**: when the retry interval exceeds the timeout, the polling
operation fails immediately with the configuration error and issues zero
status queries; when the retry interval is at most the timeout, the
precondition check passes and polling begins (the first status query is
issued as soon as a response is available). -/
theorem waitForCompletion_precondition
    (clientData : OrchestrationClientInputData) (requestUrl : Option String)
    (instanceId : String) (timeoutInMilliseconds retryIntervalInMilliseconds : Nat)
    (responses : List HttpResult) :
    (retryIntervalInMilliseconds > timeoutInMilliseconds →
      waitForCompletionOrCreateCheckStatusResponse clientData requestUrl instanceId
          timeoutInMilliseconds retryIntervalInMilliseconds responses
        = { result := Except.error (DfError.timeoutLessThanRetry
              timeoutInMilliseconds retryIntervalInMilliseconds)
            statusCalls := 0
            sleeps := [] }) ∧
    (retryIntervalInMilliseconds ≤ timeoutInMilliseconds →
      ∀ res rest, responses = res :: rest →
        1 ≤ (waitForCompletionOrCreateCheckStatusResponse clientData requestUrl
              instanceId timeoutInMilliseconds retryIntervalInMilliseconds
              responses).statusCalls) := by
  constructor
  · intro h
    simp only [waitForCompletionOrCreateCheckStatusResponse, if_pos h]
  · intro h res rest hresp
    subst hresp
    simp only [waitForCompletionOrCreateCheckStatusResponse,
      if_neg (Nat.not_lt.mpr h)]
    cases hg : (getStatus clientData instanceId false false res).result with
    | error e => simp [waitForCompletionAux, hg]
    | ok status =>
      cases ht : terminalStatusResponse status with
      | some r => simp [waitForCompletionAux, hg, ht]
      | none =>
        by_cases he : (0 : Nat) < timeoutInMilliseconds
        · simp only [waitForCompletionAux, hg, ht, if_pos he]
          omega
        · simp only [waitForCompletionAux, hg, ht, if_neg he]
          omega

/-- Witness for C4 at a concrete configuration: retry 20 over timeout 10
fails with the configuration error and zero status queries. -/
theorem waitForCompletion_precondition_witness :
    waitForCompletionOrCreateCheckStatusResponse sampleClientData none "abc" 10 20 []
      = { result := Except.error (DfError.timeoutLessThanRetry 10 20)
          statusCalls := 0
          sleeps := [] } :=
  (waitForCompletion_precondition sampleClientData none "abc" 10 20 []).1
    (by decide)

/-- **C6**: `raiseEvent` with an empty event name fails immediately
without any webhook call; otherwise it issues exactly one call and maps
the response status: 202 and 410 resolve with no value, 404 fails as
instance-not-found, 400 fails as unsupported content type, and every other
status fails as unrecognized. -/
theorem raiseEvent_spec (clientData : OrchestrationClientInputData)
    (instanceId eventName : String) (res : HttpResult) :
    (eventName = "" →
      raiseEvent clientData instanceId eventName res
        = { calledUrls := [], result := Except.error DfError.invalidEventName }) ∧
    (eventName ≠ "" →
      (raiseEvent clientData instanceId eventName res).calledUrls.length = 1 ∧
      ((res.status = 202 ∨ res.status = 410) →
        (raiseEvent clientData instanceId eventName res).result = Except.ok ()) ∧
      (res.status = 404 →
        (raiseEvent clientData instanceId eventName res).result
          = Except.error (DfError.instanceNotFound instanceId)) ∧
      (res.status = 400 →
        (raiseEvent clientData instanceId eventName res).result
          = Except.error DfError.unsupportedContentType) ∧
      (¬(res.status = 202 ∨ res.status = 410 ∨ res.status = 404 ∨
          res.status = 400) →
        (raiseEvent clientData instanceId eventName res).result
          = Except.error (DfError.unrecognizedWebhookStatus res.status res.body))) := by
  constructor
  · intro h
    simp only [raiseEvent, if_pos h]
  · intro h
    refine ⟨?_, ?_, ?_, ?_, ?_⟩
    · simp [raiseEvent, h]
    · intro h2
      simp [raiseEvent, h, h2]
    · intro h2
      have hn : ¬(res.status = 202 ∨ res.status = 410) := by omega
      simp [raiseEvent, h, hn, h2]
    · intro h2
      have hn : ¬(res.status = 202 ∨ res.status = 410) := by omega
      have hn4 : res.status ≠ 404 := by omega
      simp [raiseEvent, h, hn, hn4, h2]
    · intro h2
      have hn : ¬(res.status = 202 ∨ res.status = 410) := by
        intro hc
        exact h2 (hc.elim Or.inl (fun x => Or.inr (Or.inl x)))
      have hn4 : res.status ≠ 404 := fun hc => h2 (Or.inr (Or.inr (Or.inl hc)))
      have hn0 : res.status ≠ 400 := fun hc => h2 (Or.inr (Or.inr (Or.inr hc)))
      simp [raiseEvent, h, hn, hn4, hn0]

/-- Witness for C6 at a concrete run: the empty event name gives the
immediate failure with no webhook call. -/
theorem raiseEvent_spec_witness :
    raiseEvent sampleClientData "abc" "" { status := 202, body := JsValue.null, headers := [] }
      = { calledUrls := [], result := Except.error DfError.invalidEventName } :=
  (raiseEvent_spec sampleClientData "abc" ""
    { status := 202, body := JsValue.null, headers := [] }).1 rfl

/-- **C7**: `startNew` with an empty orchestrator function name fails
immediately without any webhook call; otherwise a status above 202 fails
surfacing the response body, a status at most 202 with a truthy body
resolves with the `id` field extracted from the body, and a status at most
202 with a falsy body resolves with no id. -/
theorem startNew_spec (clientData : OrchestrationClientInputData)
    (orchestratorFunctionName : String) (instanceId : Option String)
    (res : HttpResult) :
    (orchestratorFunctionName = "" →
      startNew clientData orchestratorFunctionName instanceId res
        = { calledUrls := []
            result := Except.error DfError.invalidOrchestratorFunctionName }) ∧
    (orchestratorFunctionName ≠ "" →
      (startNew clientData orchestratorFunctionName instanceId res).calledUrls.length = 1 ∧
      (res.status > 202 →
        (startNew clientData orchestratorFunctionName instanceId res).result
          = Except.error (DfError.webhookResponseBody res.body)) ∧
      (res.status ≤ 202 → res.body.truthy = true →
        (startNew clientData orchestratorFunctionName instanceId res).result
          = Except.ok (res.body.getField "id")) ∧
      (res.status ≤ 202 → res.body.truthy = false →
        (startNew clientData orchestratorFunctionName instanceId res).result
          = Except.ok none)) := by
  constructor
  · intro h
    simp only [startNew, if_pos h]
  · intro h
    refine ⟨?_, ?_, ?_, ?_⟩
    · simp [startNew, h]
    · intro h2
      simp [startNew, h, h2]
    · intro h2 htr
      have hn : ¬res.status > 202 := by omega
      simp [startNew, h, hn, htr]
    · intro h2 htr
      have hn : ¬res.status > 202 := by omega
      simp [startNew, h, hn, htr]

/-- Witness for C7 at a concrete run: a 200 response whose body carries
the id `abc123` resolves with that id. -/
theorem startNew_spec_witness :
    (startNew sampleClientData "Foo" none
      { status := 200
        body := JsValue.obj [("id", JsValue.str "abc123")]
        headers := [] }).result
      = Except.ok (some (JsValue.str "abc123")) :=
  ((startNew_spec sampleClientData "Foo" none
    { status := 200
      body := JsValue.obj [("id", JsValue.str "abc123")]
      headers := [] }).2 (by decide)).2.2.1 (by decide) rfl

/-- **C8**: `terminate` and `rewind` map webhook status codes to outcomes
identically except on 410: 202 resolves for both, 404 fails as
instance-not-found for both, statuses outside the enumerated codes fail as
unrecognized for both, and on 410 `terminate` resolves while `rewind`
fails with the rewind-only-supported-on-failed-instances error. -/
theorem terminate_rewind_agreement (clientData : OrchestrationClientInputData)
    (instanceId reason : String) (res : HttpResult) :
    (res.status ≠ 410 →
      (terminate clientData instanceId reason res).result
        = (rewind clientData instanceId reason res).result) ∧
    (res.status = 202 →
      (terminate clientData instanceId reason res).result = Except.ok () ∧
      (rewind clientData instanceId reason res).result = Except.ok ()) ∧
    (res.status = 404 →
      (terminate clientData instanceId reason res).result
        = Except.error (DfError.instanceNotFound instanceId) ∧
      (rewind clientData instanceId reason res).result
        = Except.error (DfError.instanceNotFound instanceId)) ∧
    (res.status = 410 →
      (terminate clientData instanceId reason res).result = Except.ok () ∧
      (rewind clientData instanceId reason res).result
        = Except.error DfError.rewindOnlyFailedInstances) ∧
    (¬(res.status = 202 ∨ res.status = 404 ∨ res.status = 410) →
      (terminate clientData instanceId reason res).result
        = Except.error (DfError.unrecognizedWebhookStatus res.status res.body) ∧
      (rewind clientData instanceId reason res).result
        = Except.error (DfError.unrecognizedWebhookStatus res.status res.body)) := by
  refine ⟨?_, ?_, ?_, ?_, ?_⟩
  · intro h410
    by_cases h202 : res.status = 202
    · simp [terminate, rewind, h202]
    · by_cases h404 : res.status = 404
      · have hn : ¬(res.status = 202 ∨ res.status = 410) := by omega
        simp [terminate, rewind, hn, h202, h404]
      · have hn : ¬(res.status = 202 ∨ res.status = 410) := by
          intro hc
          rcases hc with hc | hc
          · exact h202 hc
          · exact h410 hc
        simp [terminate, rewind, hn, h202, h404, h410]
  · intro h2
    simp [terminate, rewind, h2]
  · intro h2
    have hn : ¬(res.status = 202 ∨ res.status = 410) := by omega
    have h202 : res.status ≠ 202 := by omega
    simp [terminate, rewind, hn, h202, h2]
  · intro h2
    have hn : res.status = 202 ∨ res.status = 410 := Or.inr h2
    have h202 : res.status ≠ 202 := by omega
    have h404 : res.status ≠ 404 := by omega
    simp [terminate, rewind, hn, h202, h404, h2]
  · intro h2
    have h202 : res.status ≠ 202 := fun hc => h2 (Or.inl hc)
    have h404 : res.status ≠ 404 := fun hc => h2 (Or.inr (Or.inl hc))
    have h410 : res.status ≠ 410 := fun hc => h2 (Or.inr (Or.inr hc))
    have hn : ¬(res.status = 202 ∨ res.status = 410) := by
      intro hc
      rcases hc with hc | hc
      · exact h202 hc
      · exact h410 hc
    simp [terminate, rewind, hn, h202, h404, h410]

/-- Witness for C8 at a concrete response: on 410 the terminate operation
resolves while the rewind operation fails with the rewind-specific
error. -/
theorem terminate_rewind_agreement_witness :
    (terminate sampleClientData "abc" "r"
      { status := 410, body := JsValue.null, headers := [] }).result = Except.ok () ∧
    (rewind sampleClientData "abc" "r"
      { status := 410, body := JsValue.null, headers := [] }).result
      = Except.error DfError.rewindOnlyFailedInstances :=
  (terminate_rewind_agreement sampleClientData "abc" "r"
    { status := 410, body := JsValue.null, headers := [] }).2.2.2.1 rfl

/-- **C9**: every transport request built by the webhook client carries
the header `Content-Type: application/json` and a `Content-Length` equal
to the length of the JSON-encoded payload when a body is supplied and 0
when no body is supplied. -/
theorem callWebhook_request_headers (url : Url) (httpMethod : String)
    (input : Option JsValue) (timeoutInMilliseconds : Option Nat)
    (options : IRequestOptions)
    (h : callWebhook url httpMethod input timeoutInMilliseconds = Except.ok options) :
    options.headers
      = [("Content-Type", HeaderValue.str "application/json"),
         ("Content-Length", HeaderValue.num
           (match jsStringify input with
            | some s => s.length
            | none => 0))] := by
  simp only [callWebhook] at h
  split at h
  · cases h
    rfl
  · exact Except.noConfusion h

/-- Witness for C9 at a concrete request: a POST of the number 7 carries
`Content-Length: 1`. -/
theorem callWebhook_request_headers_witness :
    ({ hostname := "host", path := "/a", method := "POST",
       headers := [("Content-Type", HeaderValue.str "application/json"),
                   ("Content-Length", HeaderValue.num 1)],
       port := none, timeout := none } : IRequestOptions).headers
      = [("Content-Type", HeaderValue.str "application/json"),
         ("Content-Length", HeaderValue.num 1)] :=
  callWebhook_request_headers ⟨"http:", "host", "", "/a", ""⟩ "POST"
    (some (JsValue.num 7)) none _ rfl

/-- Counterexample to **C10** as stated: the 202 check-status response
carries no `Content-Length` header at all — its headers are exactly the
content type, the location and the retry-after entry. -/
theorem createCheckStatusResponse_no_contentLength :
    ((createCheckStatusResponse sampleClientData none "abc").headers.map Prod.fst)
      = ["Content-Type", "Location", "Retry-After"] ∧
    ¬ ("Content-Length" ∈
        (createCheckStatusResponse sampleClientData none "abc").headers.map Prod.fst) := by
  refine ⟨rfl, ?_⟩
  intro hmem
  rw [show (createCheckStatusResponse sampleClientData none "abc").headers.map Prod.fst
      = ["Content-Type", "Location", "Retry-After"] from rfl] at hmem
  simp at hmem

/-- **C10 (amended)**: the polling operation's terminal responses, built
by `createHttpResponse`, carry `Content-Type: application/json` and a
`Content-Length` equal to the length of the serialized body (0 when the
body serializes to `undefined`), and their body is that serialized string;
the 202 check-status response carries `Content-Type: application/json`,
a `Location` header equal to the payload's status-query URL and
`Retry-After: 10`, but no `Content-Length` header, and its body is the
management payload object itself, unserialized. -/
theorem client_response_headers (statusCode : Nat) (body : Option JsValue)
    (clientData : OrchestrationClientInputData) (requestUrl : Option String)
    (instanceId : String) :
    (createHttpResponse statusCode body).headers
      = [("Content-Type", HeaderValue.str "application/json"),
         ("Content-Length", HeaderValue.num
           (match jsStringify body with
            | some s => s.length
            | none => 0))] ∧
    (createHttpResponse statusCode body).body
      = (match jsStringify body with
         | some s => ResponseBody.text s
         | none => ResponseBody.undef) ∧
    (createHttpResponse statusCode body).status = statusCode ∧
    (createCheckStatusResponse clientData requestUrl instanceId).status = 202 ∧
    (createCheckStatusResponse clientData requestUrl instanceId).body
      = ResponseBody.payload (getClientResponseLinks clientData requestUrl instanceId) ∧
    (createCheckStatusResponse clientData requestUrl instanceId).headers
      = [("Content-Type", HeaderValue.str "application/json"),
         ("Location", HeaderValue.str
           (getClientResponseLinks clientData requestUrl instanceId).statusQueryGetUri),
         ("Retry-After", HeaderValue.num 10)] ∧
    ¬ ("Content-Length" ∈
        (createCheckStatusResponse clientData requestUrl instanceId).headers.map Prod.fst) := by
  refine ⟨rfl, rfl, rfl, rfl, rfl, rfl, ?_⟩
  intro hmem
  rw [show (createCheckStatusResponse clientData requestUrl instanceId).headers.map Prod.fst
      = ["Content-Type", "Location", "Retry-After"] from rfl] at hmem
  simp at hmem

/-- Counterexample to **C2** as stated: with a template in which the id
placeholder occurs twice, only the first occurrence is replaced
(JavaScript string `replace` with a string pattern stops after one
replacement), so the second occurrence survives in the payload. -/
theorem createHttpManagementPayload_second_occurrence :
    (createHttpManagementPayload doubledIdClientData "abc").statusQueryGetUri
      = "http://host/instances/abc?watch=ID" ∧
    (createHttpManagementPayload doubledIdClientData "abc").statusQueryGetUri
      ≠ "http://host/instances/abc?watch=abc" := by
  refine ⟨rfl, ?_⟩
  intro h
  rw [show (createHttpManagementPayload doubledIdClientData "abc").statusQueryGetUri
      = "http://host/instances/abc?watch=ID" from rfl] at h
  exact absurd h (by decide)

/-- When the pattern occurs at a position and at no earlier position,
`replaceFirstList` replaces exactly that occurrence and leaves the rest of
the list unaltered. -/
theorem replaceFirstList_of_first_occurrence (pat repl b : List Char) :
    ∀ a : List Char,
      (∀ k, k < a.length → pat.isPrefixOf ((a ++ (pat ++ b)).drop k) = false) →
      replaceFirstList pat repl (a ++ (pat ++ b)) = a ++ (repl ++ b) := by
  intro a
  induction a with
  | nil =>
    intro _
    simp only [List.nil_append]
    cases pat with
    | nil =>
      cases b with
      | nil => simp [replaceFirstList]
      | cons c cs => simp [replaceFirstList, List.isPrefixOf]
    | cons p ps =>
      have hpre : (p :: ps).isPrefixOf ((p :: ps) ++ b) = true :=
        List.isPrefixOf_iff_prefix.mpr (List.prefix_append _ b)
      calc replaceFirstList (p :: ps) repl ((p :: ps) ++ b)
          = replaceFirstList (p :: ps) repl (p :: (ps ++ b)) := by
            rw [List.cons_append]
        _ = repl ++ (p :: (ps ++ b)).drop (p :: ps).length := by
            rw [List.cons_append] at hpre
            simp only [replaceFirstList, if_pos hpre]
        _ = repl ++ b := by
            rw [← List.cons_append, List.drop_left]
  | cons c a ih =>
    intro hfirst
    have h0 : pat.isPrefixOf (c :: (a ++ (pat ++ b))) = false := by
      simpa using hfirst 0 (Nat.succ_pos _)
    have hrec : replaceFirstList pat repl (a ++ (pat ++ b)) = a ++ (repl ++ b) := by
      apply ih
      intro k hk
      have hk1 := hfirst (k + 1) (Nat.succ_lt_succ hk)
      rwa [List.cons_append, List.drop_succ_cons] at hk1
    calc replaceFirstList pat repl ((c :: a) ++ (pat ++ b))
        = replaceFirstList pat repl (c :: (a ++ (pat ++ b))) := by
          rw [List.cons_append]
      _ = c :: replaceFirstList pat repl (a ++ (pat ++ b)) := by
          simp only [replaceFirstList,
            if_neg (by simp [h0] :
              ¬pat.isPrefixOf (c :: (a ++ (pat ++ b))) = true)]
      _ = (c :: a) ++ (repl ++ b) := by
          rw [hrec, List.cons_append]

/-- String-level corollary: when the placeholder `pat` occurs in
`a ++ pat ++ b` at no position inside `a`, the JavaScript string `replace`
rewrites exactly that occurrence of `pat` to `repl` and leaves `a` and `b`
unaltered. -/
theorem jsReplaceFirst_of_unique_occurrence (a pat b repl : String)
    (hfirst : ∀ k, k < a.data.length →
      pat.data.isPrefixOf ((a ++ pat ++ b).data.drop k) = false) :
    jsReplaceFirst (a ++ pat ++ b) pat repl = a ++ repl ++ b := by
  apply String.ext
  show replaceFirstList pat.data repl.data (a ++ pat ++ b).data
      = (a ++ repl ++ b).data
  rw [String.data_append, String.data_append, String.data_append,
    String.data_append, List.append_assoc, List.append_assoc]
  apply replaceFirstList_of_first_occurrence
  intro k hk
  have hk2 := hfirst k hk
  rwa [String.data_append, String.data_append, List.append_assoc] at hk2

/-- **C2 (amended)**: `createHttpManagementPayload` maps each management
URL template (and the `id` entry) to the template with the FIRST
occurrence of the configured id placeholder replaced by the given id;
when the placeholder occurs exactly once in a template — the invariant the
spec states for the configured templates — that occurrence is replaced
and no other part of the URL is altered.  A template containing the
placeholder more than once keeps every occurrence after the first. -/
theorem createHttpManagementPayload_spec
    (clientData : OrchestrationClientInputData) (instanceId : String) :
    payloadUrls (createHttpManagementPayload clientData instanceId)
      = (payloadUrls clientData.managementUrls).map
          (fun link => jsReplaceFirst link clientData.managementUrls.id instanceId) ∧
    (∀ a b : String,
      (∀ k, k < a.data.length →
        clientData.managementUrls.id.data.isPrefixOf
          ((a ++ clientData.managementUrls.id ++ b).data.drop k) = false) →
      jsReplaceFirst (a ++ clientData.managementUrls.id ++ b)
          clientData.managementUrls.id instanceId
        = a ++ instanceId ++ b) := by
  constructor
  · rfl
  · intro a b hfirst
    exact jsReplaceFirst_of_unique_occurrence a _ b _ hfirst

/-- Witness for the amended C2 at a concrete configuration: the sample
status-query template, whose placeholder occurs once, is rewritten to the
URL of the requested instance with its surroundings intact. -/
theorem createHttpManagementPayload_spec_witness :
    jsReplaceFirst ("http://host/instances/" ++ "ID" ++ "?code=KEY") "ID" "abc"
      = "http://host/instances/" ++ "abc" ++ "?code=KEY" :=
  (createHttpManagementPayload_spec sampleClientData "abc").2
    "http://host/instances/" "?code=KEY" (by decide)

/-- The conditional the source uses to pick the sleep duration is the
retry interval clamped to the remaining time. -/
theorem ite_gt_eq_min (r rem : Nat) : (if rem > r then r else rem) = min r rem := by
  by_cases h : rem > r
  · rw [if_pos h, Nat.min_eq_left (Nat.le_of_lt h)]
  · rw [if_neg h, Nat.min_eq_right (Nat.le_of_not_lt h)]

/-- Every sleep the polling loop performs is clamped, from any starting
elapsed time. -/
theorem waitForCompletionAux_sleeps_clamped
    (clientData : OrchestrationClientInputData) (requestUrl : Option String)
    (instanceId : String) (timeoutInMilliseconds retryIntervalInMilliseconds : Nat)
    (responses : List HttpResult) :
    ∀ elapsed,
      clampedSleeps timeoutInMilliseconds retryIntervalInMilliseconds elapsed
        (waitForCompletionAux clientData requestUrl instanceId
          timeoutInMilliseconds retryIntervalInMilliseconds responses elapsed).sleeps := by
  induction responses with
  | nil =>
    intro elapsed
    simp [waitForCompletionAux, clampedSleeps]
  | cons res rest ih =>
    intro elapsed
    cases hg : (getStatus clientData instanceId false false res).result with
    | error e => simp [waitForCompletionAux, hg, clampedSleeps]
    | ok status =>
      cases ht : terminalStatusResponse status with
      | some r => simp [waitForCompletionAux, hg, ht, clampedSleeps]
      | none =>
        by_cases he : elapsed < timeoutInMilliseconds
        · simp only [waitForCompletionAux, hg, ht, if_pos he, ite_gt_eq_min]
          refine ⟨he, rfl, ?_, ?_⟩
          · have : min retryIntervalInMilliseconds
                (timeoutInMilliseconds - elapsed) ≤ timeoutInMilliseconds - elapsed :=
              Nat.min_le_right _ _
            omega
          · exact ih _
        · simp [waitForCompletionAux, hg, ht, he, clampedSleeps]

/-- **C5**: in every polling iteration that continues, the loop sleeps for
exactly the retry interval clamped to the time remaining before the
deadline — each recorded sleep starts strictly before the deadline, lasts
`min retryIntervalInMilliseconds (timeoutInMilliseconds - elapsed)`, and
never continues past the deadline. -/
theorem waitForCompletion_sleeps_clamped
    (clientData : OrchestrationClientInputData) (requestUrl : Option String)
    (instanceId : String) (timeoutInMilliseconds retryIntervalInMilliseconds : Nat)
    (responses : List HttpResult) :
    clampedSleeps timeoutInMilliseconds retryIntervalInMilliseconds 0
      (waitForCompletionOrCreateCheckStatusResponse clientData requestUrl
        instanceId timeoutInMilliseconds retryIntervalInMilliseconds
        responses).sleeps := by
  by_cases h : retryIntervalInMilliseconds > timeoutInMilliseconds
  · simp [waitForCompletionOrCreateCheckStatusResponse, h, clampedSleeps]
  · simp only [waitForCompletionOrCreateCheckStatusResponse, if_neg h]
    exact waitForCompletionAux_sleeps_clamped clientData requestUrl instanceId
      timeoutInMilliseconds retryIntervalInMilliseconds responses 0

/-- **C1**: for every configuration, instance and sequence of status-query
results, the polling operation returns HTTP 200 with the instance output
as body when the first terminal status observed is `Completed`, HTTP 200
with the full status object as body when it is `Canceled` or `Terminated`,
HTTP 500 with the full status object as body when it is `Failed`; an
iteration that observes no terminal status either recurses after the
clamped sleep (while the deadline has not passed) or returns exactly
`createCheckStatusResponse` once the deadline has been reached, and when
the precondition holds the operation is the loop started at elapsed time
zero. -/
theorem waitForCompletion_outcomes
    (clientData : OrchestrationClientInputData) (requestUrl : Option String)
    (instanceId : String) (timeoutInMilliseconds retryIntervalInMilliseconds : Nat)
    (res : HttpResult) (rest : List HttpResult) (elapsed : Nat) (status : JsValue)
    (hok : (getStatus clientData instanceId false false res).result
      = Except.ok status) :
    (status.truthy = true →
      (status.getField "runtimeStatus" = some (JsValue.str "Completed") →
        waitForCompletionAux clientData requestUrl instanceId timeoutInMilliseconds
            retryIntervalInMilliseconds (res :: rest) elapsed
          = { result := Except.ok (some (createHttpResponse 200
                (status.getField "output")))
              statusCalls := 1
              sleeps := [] }) ∧
      ((status.getField "runtimeStatus" = some (JsValue.str "Canceled") ∨
        status.getField "runtimeStatus" = some (JsValue.str "Terminated")) →
        waitForCompletionAux clientData requestUrl instanceId timeoutInMilliseconds
            retryIntervalInMilliseconds (res :: rest) elapsed
          = { result := Except.ok (some (createHttpResponse 200 (some status)))
              statusCalls := 1
              sleeps := [] }) ∧
      (status.getField "runtimeStatus" = some (JsValue.str "Failed") →
        waitForCompletionAux clientData requestUrl instanceId timeoutInMilliseconds
            retryIntervalInMilliseconds (res :: rest) elapsed
          = { result := Except.ok (some (createHttpResponse 500 (some status)))
              statusCalls := 1
              sleeps := [] })) ∧
    (terminalStatusResponse status = none →
      (timeoutInMilliseconds ≤ elapsed →
        waitForCompletionAux clientData requestUrl instanceId timeoutInMilliseconds
            retryIntervalInMilliseconds (res :: rest) elapsed
          = { result := Except.ok (some (createCheckStatusResponse clientData
                requestUrl instanceId))
              statusCalls := 1
              sleeps := [] }) ∧
      (elapsed < timeoutInMilliseconds →
        waitForCompletionAux clientData requestUrl instanceId timeoutInMilliseconds
            retryIntervalInMilliseconds (res :: rest) elapsed
          = { result := (waitForCompletionAux clientData requestUrl instanceId
                timeoutInMilliseconds retryIntervalInMilliseconds rest
                (elapsed + min retryIntervalInMilliseconds
                  (timeoutInMilliseconds - elapsed))).result
              statusCalls := (waitForCompletionAux clientData requestUrl instanceId
                timeoutInMilliseconds retryIntervalInMilliseconds rest
                (elapsed + min retryIntervalInMilliseconds
                  (timeoutInMilliseconds - elapsed))).statusCalls + 1
              sleeps := min retryIntervalInMilliseconds
                  (timeoutInMilliseconds - elapsed) ::
                (waitForCompletionAux clientData requestUrl instanceId
                  timeoutInMilliseconds retryIntervalInMilliseconds rest
                  (elapsed + min retryIntervalInMilliseconds
                    (timeoutInMilliseconds - elapsed))).sleeps })) ∧
    (retryIntervalInMilliseconds ≤ timeoutInMilliseconds →
      waitForCompletionOrCreateCheckStatusResponse clientData requestUrl instanceId
          timeoutInMilliseconds retryIntervalInMilliseconds (res :: rest)
        = waitForCompletionAux clientData requestUrl instanceId
            timeoutInMilliseconds retryIntervalInMilliseconds (res :: rest) 0) := by
  refine ⟨?_, ?_, ?_⟩
  · intro htruthy
    refine ⟨?_, ?_, ?_⟩
    · intro hfield
      have ht : terminalStatusResponse status
          = some (createHttpResponse 200 (status.getField "output")) := by
        simp [terminalStatusResponse, htruthy, hfield]
      simp [waitForCompletionAux, hok, ht]
    · intro hfield
      have ht : terminalStatusResponse status
          = some (createHttpResponse 200 (some status)) := by
        rcases hfield with hfield | hfield <;>
          simp [terminalStatusResponse, htruthy, hfield]
      simp [waitForCompletionAux, hok, ht]
    · intro hfield
      have ht : terminalStatusResponse status
          = some (createHttpResponse 500 (some status)) := by
        simp [terminalStatusResponse, htruthy, hfield]
      simp [waitForCompletionAux, hok, ht]
  · intro htnone
    constructor
    · intro hto
      simp [waitForCompletionAux, hok, htnone, Nat.not_lt.mpr hto]
    · intro he
      simp only [waitForCompletionAux, hok, htnone, if_pos he, ite_gt_eq_min]
  · intro hle
    simp only [waitForCompletionOrCreateCheckStatusResponse,
      if_neg (Nat.not_lt.mpr hle)]

/-- Witness for C1 at a concrete run: a first poll reporting a completed
instance returns HTTP 200 with the output as body after exactly one
status query and no sleep. -/
theorem waitForCompletion_outcomes_witness :
    waitForCompletionAux sampleClientData none "abc" 1000 100
        [{ status := 200, body := sampleCompletedStatus, headers := [] }] 0
      = { result := Except.ok (some (createHttpResponse 200
            (sampleCompletedStatus.getField "output")))
          statusCalls := 1
          sleeps := [] } :=
  (((waitForCompletion_outcomes sampleClientData none "abc" 1000 100
      { status := 200, body := sampleCompletedStatus, headers := [] } [] 0
      sampleCompletedStatus rfl).1 rfl).1) rfl
